import Mathlib

/-!
Verification of the hybrid storage subsystem of a small self-hosted blog:
slug derivation, post CRUD over a relational metadata store mirrored by
on-disk snapshot files, asset upload and retrieval, and the
rebuild-from-files reconciliation procedure (`database.js` plus the
upload/asset HTTP handlers of the server file).

Modelling conventions:
* Machine state is passed explicitly: `DB` is the `posts` table (a list of
  rows plus the AUTOINCREMENT sequence), the articles directory is a list
  of `ArticleDir` values (one per subdirectory of the articles root).
* Fallible operations return `Except St _`; the `error` payload is the
  state as left behind by the throwing call (SQLite statements and the
  transaction wrapper roll back their own partial effects, file writes do
  not).
* The wall clock is an explicit parameter `t : Nat`, milliseconds since
  the Unix epoch.  `CURRENT_TIMESTAMP` of SQLite renders it as
  `YYYY-MM-DD HH:MM:SS` (`sqliteTimestamp`), JavaScript's
  `Date.prototype.toISOString` renders it as
  `YYYY-MM-DDTHH:MM:SS.mmmZ` (`isoTimestamp`); both are implemented below
  over the proleptic Gregorian calendar.
-/

/-- Decimal rendering of `n`, left-padded with zeros to width `w`
(the behaviour of the fixed-width fields of both timestamp formats). -/
def pad (w n : Nat) : String :=
  let s := toString n
  if w ≤ s.length then s else String.mk (List.replicate (w - s.length) '0') ++ s

/-- Civil date `(year, month, day)` of a day count since 1970-01-01,
proleptic Gregorian calendar (the standard days-to-civil algorithm used
by both SQLite and JavaScript date rendering for post-epoch instants). -/
def civilOfDays (z0 : Nat) : Nat × Nat × Nat :=
  let z := z0 + 719468
  let era := z / 146097
  let doe := z % 146097
  let yoe := (doe - doe / 1460 + doe / 36524 - doe / 146096) / 365
  let y := yoe + era * 400
  let doy := doe - (365 * yoe + yoe / 4 - yoe / 100)
  let mp := (5 * doy + 2) / 153
  let d := doy - (153 * mp + 2) / 5 + 1
  let m := if mp < 10 then mp + 3 else mp - 9
  (if m ≤ 2 then y + 1 else y, m, d)

/-- `CURRENT_TIMESTAMP` of SQLite at `t` milliseconds since the epoch:
`YYYY-MM-DD HH:MM:SS` in UTC. -/
def sqliteTimestamp (t : Nat) : String :=
  let sec := t / 1000
  let c := civilOfDays (sec / 86400)
  pad 4 c.1 ++ "-" ++ pad 2 c.2.1 ++ "-" ++ pad 2 c.2.2 ++ " " ++
    pad 2 (sec / 3600 % 24) ++ ":" ++ pad 2 (sec / 60 % 60) ++ ":" ++ pad 2 (sec % 60)

/-- `new Date(t).toISOString()`: `YYYY-MM-DDTHH:MM:SS.mmmZ` in UTC. -/
def isoTimestamp (t : Nat) : String :=
  let sec := t / 1000
  let c := civilOfDays (sec / 86400)
  pad 4 c.1 ++ "-" ++ pad 2 c.2.1 ++ "-" ++ pad 2 c.2.2 ++ "T" ++
    pad 2 (sec / 3600 % 24) ++ ":" ++ pad 2 (sec / 60 % 60) ++ ":" ++ pad 2 (sec % 60) ++
    "." ++ pad 3 (t % 1000) ++ "Z"

/-!
## Slug derivation (`createSlug`, database.js lines 36-42)

```js
function createSlug(title) {
  return title
    .toLowerCase()
    .replace(/[^\wЀ-ӿ]+/g, '-')
    .replace(/^-+|-+$/g, '')
    .substring(0, 100);
}
```
-/

/-- One character of `String.prototype.toLowerCase`, restricted to the
ranges that interact with the permitted slug alphabet: ASCII `A`-`Z` and
the Cyrillic capitals `U+0400`-`U+042F`.  Characters outside these ranges
are mapped to themselves; every such character either already lies in the
permitted alphabet in both model and JavaScript or is replaced by the
separator in the next step, so the restriction does not change `createSlug`
on the inputs reasoned about here. -/
def jsToLower (c : Char) : Char :=
  let v := c.toNat
  if 65 ≤ v && v ≤ 90 then Char.ofNat (v + 32)
  else if 0x410 ≤ v && v ≤ 0x42F then Char.ofNat (v + 0x20)
  else if 0x400 ≤ v && v ≤ 0x40F then Char.ofNat (v + 0x50)
  else c

/-- Membership in the character class `[\wЀ-ӿ]` of the
replacement regex: ASCII word characters plus the `U+0400`-`U+04FF`
Cyrillic block. -/
def slugAllowed (c : Char) : Bool :=
  let v := c.toNat
  (48 ≤ v && v ≤ 57) || (65 ≤ v && v ≤ 90) || (97 ≤ v && v ≤ 122) ||
    v == 95 || (0x400 ≤ v && v ≤ 0x4FF)

/-- `.replace(/[^\wЀ-ӿ]+/g, '-')`: every maximal run of
characters outside the permitted alphabet becomes a single `'-'`.
The flag records whether the previous character belonged to such a run. -/
def collapseRuns : List Char → Bool → List Char
  | [], _ => []
  | c :: rest, prevBad =>
    if slugAllowed c then c :: collapseRuns rest false
    else if prevBad then collapseRuns rest prevBad
    else '-' :: collapseRuns rest true

/-- `.replace(/^-+|-+$/g, '')`: drop leading and trailing separators. -/
def trimSeps (l : List Char) : List Char :=
  ((l.dropWhile (fun c => c == '-')).reverse.dropWhile (fun c => c == '-')).reverse

/-- `createSlug` of database.js: lower-case, collapse forbidden runs to a
single separator, trim separators at both ends, truncate to 100
characters (all output characters are in the Basic Multilingual Plane, so
the UTF-16 `substring(0, 100)` of the source is a 100-character prefix). -/
def createSlug (title : String) : String :=
  String.mk ((trimSeps (collapseRuns (title.data.map jsToLower) false)).take 100)

/-!
## Data model

The `posts` table (`id INTEGER PRIMARY KEY AUTOINCREMENT, title TEXT NOT
NULL, slug TEXT UNIQUE, created_at, updated_at`) and the articles
directory tree.  An `info.json` file either parses to a JSON object
(modelled as an association list in property order, with number and
string values — the shapes the application itself reads and writes) or
is unparseable (`InfoFile.bad`).
-/

/-- A JSON value stored in a snapshot file: a number or a string. -/
inductive JVal where
  | num : Int → JVal
  | str : String → JVal
deriving DecidableEq, Repr

/-- A parsed JSON object: key/value pairs in property order. -/
abbrev JObj := List (String × JVal)

/-- Contents of an `info.json` file on disk. -/
inductive InfoFile where
  | obj : JObj → InfoFile
  | bad : InfoFile
deriving DecidableEq, Repr

/-- One row of the `posts` table. -/
structure Row where
  id : Int
  title : String
  slug : String
  created_at : String
  updated_at : String
deriving DecidableEq, Repr

/-- The relational store: the `posts` rows and the AUTOINCREMENT
sequence (largest id ever allocated; the next fresh id is `seq + 1`). -/
structure DB where
  posts : List Row
  seq : Int
deriving DecidableEq, Repr

/-- One subdirectory of the articles root: its name, the `info.json`
snapshot (if the file exists), the `content.html` file (if it exists)
and the files of its `assets` subdirectory. -/
structure ArticleDir where
  name : String
  info : Option InfoFile
  content : Option String
  assets : List (String × List Nat)
deriving DecidableEq, Repr

/-- Full storage state: relational store plus articles directory. -/
structure St where
  db : DB
  fs : List ArticleDir
deriving DecidableEq, Repr

/-- `JSON.parse` field access on an object (first binding wins, as in a
parsed JSON object where later duplicates have already been collapsed). -/
def jlookup (k : String) : JObj → Option JVal
  | [] => none
  | (k2, v) :: rest => if k2 == k then some v else jlookup k rest

/-- JavaScript property assignment `obj[k] = v`: overwrite in place if
the key exists, append otherwise. -/
def jset (k : String) (v : JVal) : JObj → JObj
  | [] => [(k, v)]
  | (k2, v2) :: rest => if k2 == k then (k, v) :: rest else (k2, v2) :: jset k v rest

/-- The subdirectory of the articles root with the given name. -/
def dirOf (fs : List ArticleDir) (name : String) : Option ArticleDir :=
  fs.find? (fun d => d.name == name)

/-- Apply `f` to the directory with the given name (a file write into an
existing directory); directories keep their names. -/
def setDir (fs : List ArticleDir) (name : String) (f : ArticleDir → ArticleDir) :
    List ArticleDir :=
  fs.map (fun d => if d.name == name then f d else d)

/-- `createArticleFolder` (database.js lines 45-53): create the
directory (with its empty `assets` subdirectory) unless it already
exists. -/
def ensureDir (fs : List ArticleDir) (name : String) : List ArticleDir :=
  if (dirOf fs name).isSome then fs else fs ++ [⟨name, none, none, []⟩]

/-- First row of the `posts` table with the given id
(`SELECT * FROM posts WHERE id = ?`). -/
def rowOf (st : St) (id : Int) : Option Row :=
  st.db.posts.find? (fun r => r.id == id)

/-- The `content.html` file of the named article directory. -/
def contentOf (fs : List ArticleDir) (name : String) : Option String :=
  (dirOf fs name).bind (fun d => d.content)

/-- The `info.json` file of the named article directory. -/
def infoOf (fs : List ArticleDir) (name : String) : Option InfoFile :=
  (dirOf fs name).bind (fun d => d.info)

/-- The parsed snapshot object of the named article directory, when the
file exists and parses. -/
def snapObjAt (st : St) (name : String) : Option JObj :=
  match infoOf st.fs name with
  | some (InfoFile.obj fields) => some fields
  | _ => none

/-- A field of the parsed snapshot object of the named directory. -/
def snapFieldAt (st : St) (name key : String) : Option JVal :=
  (snapObjAt st name).bind (jlookup key)

/-!
## Post lifecycle operations (database.js)
-/

/-- Result of a successful `createPost`: `{ id, slug, path }` (the path
is recorded as the directory name under the articles root). -/
structure CreateRes where
  id : Int
  slug : String
  path : String
deriving DecidableEq, Repr

/-- `createPost(title, content)` (lines 57-92).  Inside one transaction:
`INSERT INTO posts` (throws on a `slug` UNIQUE violation, rolling the
transaction back before any directory is touched), then create the
article directory, write `content.html`, and write the `info.json`
snapshot whose timestamps come from `new Date().toISOString()` while the
row's come from SQL `CURRENT_TIMESTAMP`. -/
def createPost (title content : String) (t : Nat) (st : St) :
    Except St (CreateRes × St) :=
  let slug := createSlug title
  if st.db.posts.any (fun r => r.slug == slug) then
    Except.error st
  else
    let postId := st.db.seq + 1
    let row : Row := ⟨postId, title, slug, sqliteTimestamp t, sqliteTimestamp t⟩
    let db : DB := ⟨st.db.posts ++ [row], postId⟩
    let dn := toString postId
    let fs1 := ensureDir st.fs dn
    let fs2 := setDir fs1 dn (fun d => { d with content := some content })
    let info : JObj :=
      [("id", JVal.num postId), ("title", JVal.str title), ("slug", JVal.str slug),
       ("created_at", JVal.str (isoTimestamp t)),
       ("updated_at", JVal.str (isoTimestamp t))]
    let fs3 := setDir fs2 dn (fun d => { d with info := some (InfoFile.obj info) })
    Except.ok (⟨postId, slug, dn⟩, ⟨db, fs3⟩)

/-- `updatePost(id, title, content)` (lines 94-124), not inside a
transaction.  The SQL `UPDATE` throws (leaving every store untouched)
when the recomputed slug collides with a different row's slug;
otherwise the row is updated, `content.html` is rewritten (throwing if
the directory does not exist), `info.json` is read — `JSON.parse`
throwing on an unparseable file — its `title`, `slug` and `updated_at`
properties are assigned, and it is written back. -/
def updatePost (id : Int) (title content : String) (t : Nat) (st : St) :
    Except St St :=
  let slug := createSlug title
  if st.db.posts.any (fun r => r.id != id && r.slug == slug) then
    Except.error st
  else
    let posts := st.db.posts.map (fun r =>
      if r.id == id then
        { r with title := title, slug := slug, updated_at := sqliteTimestamp t }
      else r)
    let db : DB := ⟨posts, st.db.seq⟩
    let dn := toString id
    match dirOf st.fs dn with
    | none => Except.error ⟨db, st.fs⟩
    | some d =>
      let fs1 := setDir st.fs dn (fun d2 => { d2 with content := some content })
      match d.info with
      | some InfoFile.bad => Except.error ⟨db, fs1⟩
      | some (InfoFile.obj fields) =>
        Except.ok ⟨db, setDir fs1 dn (fun d2 =>
          { d2 with info := some (InfoFile.obj
              (jset "updated_at" (JVal.str (isoTimestamp t))
                (jset "slug" (JVal.str slug)
                  (jset "title" (JVal.str title) fields)))) })⟩
      | none =>
        Except.ok ⟨db, setDir fs1 dn (fun d2 =>
          { d2 with info := some (InfoFile.obj
              (jset "updated_at" (JVal.str (isoTimestamp t))
                (jset "slug" (JVal.str slug)
                  (jset "title" (JVal.str title) [])))) })⟩

/-- `deletePost(id)` (lines 126-137): `DELETE FROM posts WHERE id = ?`,
then remove the article directory recursively if it exists. -/
def deletePost (id : Int) (st : St) : St :=
  ⟨⟨st.db.posts.filter (fun r => !(r.id == id)), st.db.seq⟩,
   st.fs.filter (fun d => !(d.name == toString id))⟩

/-- A post as returned by `getPostById`: the row, the `content` body and
the attached parsed `info` object when the snapshot file exists. -/
structure PostView where
  row : Row
  content : String
  info : Option JObj
deriving DecidableEq, Repr

/-- `getPostById(id)` (lines 144-166): `null` when no row exists;
otherwise the row with `content.html` read if it exists (empty body if
not) and the parsed `info.json` attached when that file exists —
`JSON.parse` throwing on an unparseable snapshot. -/
def getPostById (id : Int) (st : St) : Except St (Option PostView) :=
  match rowOf st id with
  | none => Except.ok none
  | some row =>
    let d := dirOf st.fs (toString id)
    let content :=
      match d with
      | some dir => dir.content.getD ""
      | none => ""
    match d with
    | none => Except.ok (some ⟨row, content, none⟩)
    | some dir =>
      match dir.info with
      | some InfoFile.bad => Except.error st
      | some (InfoFile.obj fields) => Except.ok (some ⟨row, content, some fields⟩)
      | none => Except.ok (some ⟨row, content, none⟩)

/-!
## Asset upload and retrieval
-/

/-- `path.extname` as used on uploaded original filenames: the suffix
from the last dot, empty when there is no dot or the only dot leads the
name. -/
def extnameOf (s : String) : String :=
  let cs := s.data
  let tailPart := (cs.drop 1).reverse.takeWhile (fun c => !(c == '.'))
  if (cs.drop 1).any (fun c => c == '.') then
    String.mk ('.' :: tailPart.reverse)
  else ""

/-- Overwrite-or-append a file in a directory listing
(`fs.writeFileSync` semantics on a single directory). -/
def putFile (files : List (String × List Nat)) (k : String) (v : List Nat) :
    List (String × List Nat) :=
  if (files.find? (fun kv => kv.1 == k)).isSome then
    files.map (fun kv => if kv.1 == k then (k, v) else kv)
  else files ++ [(k, v)]

/-- `uploadImageToPost(postId, imageBuffer, filename)` (database.js
lines 187-205): create the assets directory (and hence the article
directory) if missing, store the buffer under the generated unique name
`Date.now()-<random><ext>`, and return the asset URL.  `t` is the clock
and `rnd` the random suffix. -/
def uploadImageToPost (postId : Int) (bytes : List Nat) (filename : String)
    (t : Nat) (rnd : String) (st : St) : String × St :=
  let dn := toString postId
  let fs1 := ensureDir st.fs dn
  let uniqueName := toString t ++ "-" ++ rnd ++ extnameOf filename
  let fs2 := setDir fs1 dn (fun d => { d with assets := putFile d.assets uniqueName bytes })
  ("/api/article-asset/" ++ dn ++ "/" ++ uniqueName, ⟨st.db, fs2⟩)

/-- The multer-staged temporary file of an upload request (`req.file`):
its path in the staging directory, byte size, original client filename
and contents. -/
structure TempFile where
  tpath : String
  size : Nat
  originalname : String
  bytes : List Nat
deriving DecidableEq, Repr

/-- Response of the upload endpoint. -/
inductive UploadResp where
  | ok : String → UploadResp
  | noFile : UploadResp
  | tooLarge : UploadResp
  | serverError : UploadResp
deriving DecidableEq, Repr

/-- The fixed upload size ceiling: 10 MiB. -/
def sizeLimit : Nat := 10 * 1024 * 1024

/-- `fs.unlinkSync(req.file.path)` on the staging directory. -/
def removeTemp (temps : List (String × List Nat)) (p : String) :
    List (String × List Nat) :=
  temps.filter (fun kv => !(kv.1 == p))

/-- The `POST /api/upload-image/:postId` handler (server file lines
124-159).  `file?` is `req.file` as staged by multer, `temps` the staging
directory.  Requests without a file are rejected; oversized payloads are
rejected after unlinking the staged copy and before any asset write; an
I/O failure inside the `try` block (modelled by the `writeFails` oracle,
standing for a throw before the asset write takes effect) reaches the
`catch` block, which also unlinks the staged copy; on success the asset
is written, the staged copy unlinked and the URL returned. -/
def uploadHandler (file? : Option TempFile) (postId : Int) (t : Nat) (rnd : String)
    (writeFails : Bool) (st : St) (temps : List (String × List Nat)) :
    UploadResp × St × List (String × List Nat) :=
  match file? with
  | none => (UploadResp.noFile, st, temps)
  | some f =>
    if sizeLimit < f.size then
      (UploadResp.tooLarge, st, removeTemp temps f.tpath)
    else if writeFails then
      (UploadResp.serverError, st, removeTemp temps f.tpath)
    else
      let r := uploadImageToPost postId f.bytes f.originalname t rnd st
      (UploadResp.ok r.1, r.2, removeTemp temps f.tpath)

/-!
## Asset retrieval (`getArticleAsset`, database.js lines 208-216)

`getArticleAsset` builds
`path.join(ARTICLES_DIR, postId.toString(), 'assets', filename)` from
the caller-supplied route parameters and reads whatever file the joined
path denotes.  `path.join` normalisation (resolving `..`, `.` and empty
segments textually) is what decides which file is read, so this
operation is modelled at the path level: a disk is a map from resolved
absolute path segments to file bytes, and `ARTICLES_DIR` is
`<app root>/articles`, modelled as `["app", "articles"]`.
-/

/-- Helper of `splitPath`: split the remaining characters at `'/'`,
`acc` holding the reversed current segment. -/
def splitSegsAux : List Char → List Char → List String
  | [], acc => [String.mk acc.reverse]
  | c :: rest, acc =>
    if c == '/' then String.mk acc.reverse :: splitSegsAux rest []
    else splitSegsAux rest (c :: acc)

/-- Segments of a path string (split at `'/'`). -/
def splitPath (s : String) : List String :=
  splitSegsAux s.data []

/-- Textual path normalisation as performed by `path.join`: `..` pops
the last accumulated segment, `.` and empty segments vanish. -/
def resolveSegs : List String → List String → List String
  | acc, [] => acc
  | acc, seg :: rest =>
    if seg == ".." then resolveSegs acc.dropLast rest
    else if seg == "." || seg == "" then resolveSegs acc rest
    else resolveSegs (acc ++ [seg]) rest

/-- `ARTICLES_DIR = path.join(__dirname, 'articles')`. -/
def articlesRoot : List String := ["app", "articles"]

/-- A disk at path granularity: resolved path segments to file bytes. -/
abbrev PathFS := List (List String × List Nat)

/-- `getArticleAsset(postId, filename)`: read the bytes at the joined
and normalised path, `none` when no such file exists.  No validation is
applied to `filename` before joining. -/
def getArticleAsset (postId filename : String) (disk : PathFS) : Option (List Nat) :=
  let p := resolveSegs [] (articlesRoot ++ [postId, "assets"] ++ splitPath filename)
  (disk.find? (fun e => e.1 == p)).map (fun e => e.2)

/-- Whether a resolved path lies underneath the given directory. -/
def underDir (base p : List String) : Bool :=
  p.take base.length == base

/-!
## Reconciliation (`rebuildDatabaseFromFiles`, database.js lines 219-256)
-/

/-- Whether a directory name matches `/^\d+$/`. -/
def numericName (s : String) : Bool :=
  !(s.data.isEmpty) && s.data.all Char.isDigit

/-- SQLite INTEGER affinity on a bound JSON value for the
`id INTEGER PRIMARY KEY` column: numbers pass through, numeric text is
converted, anything else makes the statement throw. -/
def jvalToId : JVal → Option Int
  | JVal.num n => some n
  | JVal.str s => s.toInt?

/-- SQLite TEXT affinity on a bound JSON value for a text column. -/
def jvalToText : JVal → String
  | JVal.num n => toString n
  | JVal.str s => s

/-- The row a snapshot file yields during reconciliation: the `try`
block of the rebuild loop succeeds exactly when the file parses and the
five fields are present and bindable (a missing field is `undefined`,
which the driver refuses to bind; a non-numeric id fails INTEGER
affinity); any throw is caught, logged and the directory skipped. -/
def snapshotRow : InfoFile → Option Row
  | InfoFile.bad => none
  | InfoFile.obj fields =>
    match jlookup "id" fields, jlookup "title" fields, jlookup "slug" fields,
        jlookup "created_at" fields, jlookup "updated_at" fields with
    | some iv, some tv, some sv, some cv, some uv =>
      (jvalToId iv).map (fun i =>
        ⟨i, jvalToText tv, jvalToText sv, jvalToText cv, jvalToText uv⟩)
    | _, _, _, _, _ => none

/-- `INSERT OR REPLACE INTO posts (id, title, slug, created_at,
updated_at)`: every row conflicting on the primary key `id` or on the
UNIQUE `slug` is deleted, then the new row is inserted. -/
def insertOrReplace (row : Row) (posts : List Row) : List Row :=
  posts.filter (fun r => r.id != row.id && r.slug != row.slug) ++ [row]

/-- One iteration of the rebuild loop over a candidate directory. -/
def rebuildStep (db : DB) (d : ArticleDir) : DB :=
  match d.info with
  | none => db
  | some f =>
    match snapshotRow f with
    | none => db
    | some row => ⟨insertOrReplace row db.posts, max db.seq row.id⟩

/-- `rebuildDatabaseFromFiles()`: clear the `posts` table, enumerate the
numeric-named subdirectories of the articles root, and insert-or-replace
a row for each snapshot whose directory survives the `try` block. -/
def rebuildDatabaseFromFiles (st : St) : St :=
  ⟨(st.fs.filter (fun d => numericName d.name)).foldl rebuildStep ⟨[], st.db.seq⟩,
   st.fs⟩

/-- The rows contributed by a list of candidate directories, in order. -/
def validRowsOf (dirs : List ArticleDir) : List Row :=
  dirs.filterMap (fun d => d.info.bind snapshotRow)

/-- The rows contributed by the numeric-named subdirectories of the
articles root, in scan order. -/
def validRows (fs : List ArticleDir) : List Row :=
  validRowsOf (fs.filter (fun d => numericName d.name))

/-- The number of numeric-named subdirectories whose snapshot yields a
row (the `N` of the reconciliation contract). -/
def validDirCount (fs : List ArticleDir) : Nat :=
  ((fs.filter (fun d => numericName d.name)).filter
    (fun d => (d.info.bind snapshotRow).isSome)).length

/-- Pairwise distinctness of both ids and slugs along a row list. -/
def rowsDistinct : List Row → Bool
  | [] => true
  | r :: rest =>
    rest.all (fun r2 => r.id != r2.id && r.slug != r2.slug) && rowsDistinct rest

/-!
## General lemmas
-/

theorem mem_collapseRuns (l : List Char) : ∀ (b : Bool) (c : Char),
    c ∈ collapseRuns l b → slugAllowed c = true ∨ c = '-' := by
  induction l with
  | nil => intro b c h; simp [collapseRuns] at h
  | cons a as ih =>
    intro b c h
    by_cases ha : slugAllowed a
    · rw [collapseRuns, if_pos ha] at h
      rcases List.mem_cons.mp h with h1 | h2
      · exact Or.inl (h1 ▸ ha)
      · exact ih false c h2
    · rw [collapseRuns, if_neg ha] at h
      cases b with
      | true => simpa using ih true c h
      | false =>
        simp only [Bool.false_eq_true, if_false] at h
        rcases List.mem_cons.mp h with h1 | h2
        · exact Or.inr h1
        · exact ih true c h2

theorem mem_of_dropWhile {α : Type} (p : α → Bool) (l : List α) (a : α)
    (h : a ∈ l.dropWhile p) : a ∈ l := by
  induction l with
  | nil => simp [List.dropWhile] at h
  | cons x xs ih =>
    by_cases hp : p x
    · rw [List.dropWhile_cons, if_pos hp] at h
      exact List.mem_cons_of_mem _ (ih h)
    · rw [List.dropWhile_cons, if_neg hp] at h
      exact h

theorem mem_trimSeps (l : List Char) (c : Char) (h : c ∈ trimSeps l) : c ∈ l := by
  unfold trimSeps at h
  rw [List.mem_reverse] at h
  have h2 := mem_of_dropWhile _ _ _ h
  rw [List.mem_reverse] at h2
  exact mem_of_dropWhile _ _ _ h2

theorem jlookup_jset_self (k : String) (v : JVal) (l : JObj) :
    jlookup k (jset k v l) = some v := by
  induction l with
  | nil => simp [jset, jlookup]
  | cons kv rest ih =>
    by_cases h : kv.1 == k
    · rw [jset]
      simp only [h, if_true, jlookup, beq_self_eq_true, if_pos]
    · rw [jset]
      simp only [h, if_false, jlookup, ih, Bool.false_eq_true]
theorem jlookup_jset_ne (k k2 : String) (v : JVal) (l : JObj) (h : k ≠ k2) :
    jlookup k (jset k2 v l) = jlookup k l := by
  have h21 : (k2 == k) = false := beq_eq_false_iff_ne.mpr (Ne.symm h)
  induction l with
  | nil => simp [jset, jlookup, h21]
  | cons kv rest ih =>
    obtain ⟨k1, v1⟩ := kv
    by_cases hk : k1 == k2
    · have e : k1 = k2 := eq_of_beq hk
      simp only [jset, hk, if_true, jlookup, h21, Bool.false_eq_true, if_false]
      rw [if_neg]
      intro hx
      exact h ((eq_of_beq hx).symm.trans e)
    · simp only [jset, hk, Bool.false_eq_true, if_false, jlookup]
      by_cases hx : k1 == k
      · simp [hx]
      · simp only [hx, Bool.false_eq_true, if_false]
        exact ih

theorem filter_jset (k : String) (v : JVal) (l : JObj) (p : String × JVal → Bool)
    (hp : ∀ w, p (k, w) = false) : (jset k v l).filter p = l.filter p := by
  induction l with
  | nil => simp [jset, hp]
  | cons kv rest ih =>
    obtain ⟨k1, v1⟩ := kv
    by_cases hk : k1 == k
    · have e : k1 = k := eq_of_beq hk
      subst e
      simp [jset, List.filter_cons, hp]
    · simp only [jset, hk, Bool.false_eq_true, if_false, List.filter_cons]
      cases hkv : p (k1, v1) <;> simp [ih]

theorem dirOf_setDir (fs : List ArticleDir) (name : String)
    (f : ArticleDir → ArticleDir) (hf : ∀ d, (f d).name = d.name) :
    dirOf (setDir fs name f) name = (dirOf fs name).map f := by
  induction fs with
  | nil => rfl
  | cons d ds ih =>
    by_cases h : d.name == name
    · have hfd : ((f d).name == name) = true := by rw [hf d]; exact h
      unfold setDir dirOf
      simp only [List.map_cons, if_pos h]
      rw [@List.find?_cons_of_pos _ (fun d2 => d2.name == name) (f d) _ hfd,
        @List.find?_cons_of_pos _ (fun d2 => d2.name == name) d _ h]
      rfl
    · unfold setDir dirOf at ih ⊢
      simp only [List.map_cons, if_neg h]
      rw [@List.find?_cons_of_neg _ (fun d2 => d2.name == name) d _ h,
        @List.find?_cons_of_neg _ (fun d2 => d2.name == name) d _ h]
      exact ih

theorem dirOf_ensureDir (fs : List ArticleDir) (name : String) :
    dirOf (ensureDir fs name) name =
      some ((dirOf fs name).getD ⟨name, none, none, []⟩) := by
  unfold ensureDir
  cases h : dirOf fs name with
  | some d => simp [h]
  | none =>
    simp only [h, Option.isSome_none, Bool.false_eq_true, if_false, Option.getD_none]
    unfold dirOf at h ⊢
    rw [List.find?_append, h]
    simp

theorem find?_not_of_all_not {α : Type _} (p : α → Bool) (l : List α)
    (h : ∀ a ∈ l, p a = false) : l.find? p = none := by
  rw [List.find?_eq_none]
  intro a ha
  simp [h a ha]

theorem find?_filter_not {α : Type _} (p : α → Bool) (l : List α) :
    (l.filter (fun a => !(p a))).find? p = none := by
  apply find?_not_of_all_not
  intro a ha
  have := List.of_mem_filter ha
  simpa using this

/-!
## Claim C5 — slug derivation
-/

/-- C5: `createSlug` is a pure deterministic function of the title; the
result is the lower-cased title with every run of characters outside the
permitted alphabet replaced by a single separator, trimmed of leading and
trailing separators and truncated to 100 characters; every output
character is in the permitted alphabet or is the separator, and the
output length is at most 100. -/
theorem createSlug_spec (title : String) :
    (∀ t2 : String, t2 = title → createSlug t2 = createSlug title) ∧
    ((createSlug title).data.all (fun c => slugAllowed c || c == '-')) = true ∧
    (createSlug title).length ≤ 100 ∧
    createSlug title =
      String.mk ((trimSeps (collapseRuns (title.data.map jsToLower) false)).take 100) := by
  refine ⟨fun t2 h => by rw [h], ?_, ?_, rfl⟩
  · rw [List.all_eq_true]
    intro c hc
    have hc2 : c ∈ trimSeps (collapseRuns (title.data.map jsToLower) false) :=
      List.mem_of_mem_take hc
    rcases mem_collapseRuns _ false c (mem_trimSeps _ c hc2) with h1 | h1
    · simp [h1]
    · simp [h1]
  · have he : (createSlug title).length =
        ((trimSeps (collapseRuns (title.data.map jsToLower) false)).take 100).length := rfl
    rw [he]
    exact List.length_take_le 100 _

/-- Witness for C5 at the concrete title `"Hello, World!"`. -/
theorem createSlug_spec_witness :
    createSlug "Hello, World!" = "hello-world" ∧
    ((createSlug "Hello, World!").data.all (fun c => slugAllowed c || c == '-')) = true ∧
    (createSlug "Hello, World!").length ≤ 100 :=
  ⟨by decide, (createSlug_spec "Hello, World!").2.1, (createSlug_spec "Hello, World!").2.2.1⟩

/-!
## Claim C2 — create on a slug collision commits nothing
-/

/-- C2: when the relational insert of `createPost` fails because the
derived slug equals the slug of an existing row, the call fails with the
state unchanged: no row, no directory, no content file, no snapshot file
(the throw happens inside the transaction before any filesystem call). -/
theorem createPost_slug_conflict (title content : String) (t : Nat) (st : St)
    (h : st.db.posts.any (fun r => r.slug == createSlug title) = true) :
    createPost title content t st = Except.error st := by
  unfold createPost
  simp [h]

/-- Concrete state with a post whose slug is `"a"`. -/
def c2st : St := ⟨⟨[⟨1, "A", "a", "c", "u"⟩], 1⟩, [⟨"1", none, none, []⟩]⟩

/-- Witness for C2: `"A!"` also derives the slug `"a"`. -/
theorem createPost_slug_conflict_witness :
    (c2st.db.posts.any (fun r => r.slug == createSlug "A!") = true) ∧
    createPost "A!" "body" 0 c2st = Except.error c2st :=
  ⟨by decide, createPost_slug_conflict "A!" "body" 0 c2st (by decide)⟩

/-!
## Claim C4 — reconciliation is idempotent
-/

theorem rebuildFold_posts_congr (dirs : List ArticleDir) :
    ∀ (a b : DB), a.posts = b.posts →
      (dirs.foldl rebuildStep a).posts = (dirs.foldl rebuildStep b).posts := by
  induction dirs with
  | nil => intro a b h; exact h
  | cons d ds ih =>
    intro a b h
    simp only [List.foldl_cons]
    apply ih
    cases hd : d.info with
    | none => simp [rebuildStep, hd, h]
    | some f =>
      cases hs : snapshotRow f with
      | none => simp [rebuildStep, hd, hs, h]
      | some row => simp [rebuildStep, hd, hs, h]

/-- C4: for a fixed articles directory, running
`rebuildDatabaseFromFiles` twice leaves the `posts` table exactly as
running it once does (the rebuild clears the table first and the rows it
then inserts depend only on the directory tree, which it never
modifies). -/
theorem rebuild_idempotent (st : St) :
    (rebuildDatabaseFromFiles (rebuildDatabaseFromFiles st)).db.posts =
      (rebuildDatabaseFromFiles st).db.posts := by
  unfold rebuildDatabaseFromFiles
  exact rebuildFold_posts_congr _ _ _ rfl

/-!
## Claim C7 — delete removes the row and the whole directory
-/

/-- C7: for every existing post id, `deletePost` removes the relational
row and the entire article directory (and with it the content file, the
snapshot and all assets), and a subsequent `getPostById` returns
not-found. -/
theorem deletePost_spec (id : Int) (st : St) (h : (rowOf st id).isSome = true) :
    rowOf (deletePost id st) id = none ∧
    dirOf (deletePost id st).fs (toString id) = none ∧
    getPostById id (deletePost id st) = Except.ok none := by
  have hrow : rowOf (deletePost id st) id = none := by
    unfold rowOf deletePost
    exact find?_filter_not _ _
  refine ⟨hrow, ?_, ?_⟩
  · unfold dirOf deletePost
    exact find?_filter_not _ _
  · unfold getPostById
    rw [hrow]

/-- Concrete state with one post, its directory holding a snapshot, a
content file and one asset. -/
def c7st : St :=
  ⟨⟨[⟨1, "A", "a", "c", "u"⟩], 1⟩,
   [⟨"1", some (InfoFile.obj [("id", JVal.num 1)]), some "body", [("img.png", [1, 2])]⟩]⟩

/-- Witness for C7 at the concrete state `c7st`. -/
theorem deletePost_spec_witness :
    ((rowOf c7st 1).isSome = true) ∧
    (rowOf (deletePost 1 c7st) 1 = none ∧
      dirOf (deletePost 1 c7st).fs (toString (1 : Int)) = none ∧
      getPostById 1 (deletePost 1 c7st) = Except.ok none) :=
  ⟨by decide, deletePost_spec 1 c7st (by decide)⟩

/-!
## Claim C1 — reconciliation rebuilds exactly the valid snapshots
-/

theorem length_filterMap_eq {α β : Type _} (f : α → Option β) (l : List α) :
    (l.filterMap f).length = (l.filter (fun x => (f x).isSome)).length := by
  induction l with
  | nil => rfl
  | cons x xs ih =>
    cases hfx : f x with
    | none => simp [List.filterMap_cons, List.filter_cons, hfx, ih]
    | some b => simp [List.filterMap_cons, List.filter_cons, hfx, ih]

theorem foldl_rebuildStep_eq (dirs : List ArticleDir) :
    ∀ (acc : List Row) (seq : Int),
      (∀ r ∈ validRowsOf dirs, ∀ r2 ∈ acc, r.id ≠ r2.id ∧ r.slug ≠ r2.slug) →
      rowsDistinct (validRowsOf dirs) = true →
      (dirs.foldl rebuildStep ⟨acc, seq⟩).posts = acc ++ validRowsOf dirs := by
  induction dirs with
  | nil =>
    intro acc seq hdisj hpw
    simp [validRowsOf]
  | cons d ds ih =>
    intro acc seq hdisj hpw
    cases hd : d.info with
    | none =>
      have hv : validRowsOf (d :: ds) = validRowsOf ds := by
        simp [validRowsOf, hd]
      rw [hv] at hdisj hpw
      simp only [List.foldl_cons, rebuildStep, hd]
      rw [ih acc seq hdisj hpw, hv]
    | some f =>
      cases hs : snapshotRow f with
      | none =>
        have hv : validRowsOf (d :: ds) = validRowsOf ds := by
          simp [validRowsOf, hd, hs]
        rw [hv] at hdisj hpw
        simp only [List.foldl_cons, rebuildStep, hd, hs]
        rw [ih acc seq hdisj hpw, hv]
      | some row =>
        have hv : validRowsOf (d :: ds) = row :: validRowsOf ds := by
          simp [validRowsOf, hd, hs]
        rw [hv] at hdisj hpw
        have hrowacc : ∀ r2 ∈ acc, row.id ≠ r2.id ∧ row.slug ≠ r2.slug :=
          hdisj row (List.mem_cons_self row _)
        have hins : insertOrReplace row acc = acc ++ [row] := by
          unfold insertOrReplace
          rw [List.filter_eq_self.mpr]
          intro r2 hr2
          rcases hrowacc r2 hr2 with ⟨h1, h2⟩
          simp [bne_iff_ne, Ne.symm h1, Ne.symm h2]
        have hpw2 := hpw
        rw [rowsDistinct, Bool.and_eq_true] at hpw2
        rcases hpw2 with ⟨hhead, htail⟩
        rw [List.all_eq_true] at hhead
        simp only [List.foldl_cons, rebuildStep, hd, hs, hins]
        have hdisj2 : ∀ r ∈ validRowsOf ds, ∀ r2 ∈ acc ++ [row],
            r.id ≠ r2.id ∧ r.slug ≠ r2.slug := by
          intro r hr r2 hr2
          rcases List.mem_append.mp hr2 with hin | hin
          · exact hdisj r (List.mem_cons_of_mem _ hr) r2 hin
          · have he : r2 = row := by simpa using hin
            subst he
            have := hhead r hr
            rw [Bool.and_eq_true, bne_iff_ne, bne_iff_ne] at this
            exact ⟨Ne.symm this.1, Ne.symm this.2⟩
        rw [ih (acc ++ [row]) (max seq row.id) hdisj2 htail, hv]
        simp

/-- C1 (amended): a rebuild over an articles directory whose valid
snapshots carry pairwise distinct ids and pairwise distinct slugs leaves
the `posts` table holding exactly one row per numeric-named directory
with a parseable snapshot, each row equal to its snapshot's id, title,
slug, created_at and updated_at, in scan order; with no valid snapshot
the table ends up empty whatever it held before; directories whose
snapshot fails to parse are skipped without aborting the rebuild. -/
theorem rebuild_valid_snapshots (st : St)
    (h : rowsDistinct (validRows st.fs) = true) :
    (rebuildDatabaseFromFiles st).db.posts = validRows st.fs ∧
    (rebuildDatabaseFromFiles st).db.posts.length = validDirCount st.fs ∧
    (validDirCount st.fs = 0 → (rebuildDatabaseFromFiles st).db.posts = []) := by
  have hmain : (rebuildDatabaseFromFiles st).db.posts = validRows st.fs := by
    unfold rebuildDatabaseFromFiles validRows
    have := foldl_rebuildStep_eq (st.fs.filter (fun d => numericName d.name)) []
      st.db.seq (by intro r hr r2 hr2; simp at hr2) h
    simpa using this
  have hlen : (rebuildDatabaseFromFiles st).db.posts.length = validDirCount st.fs := by
    rw [hmain]
    unfold validRows validRowsOf validDirCount
    exact length_filterMap_eq _ _
  refine ⟨hmain, hlen, fun h0 => ?_⟩
  rw [← List.length_eq_zero, hlen, h0]

/-- Articles directory for the C1 witness: two valid snapshots (ids 1
and 4), one unparseable snapshot, one directory without a snapshot, one
non-numeric directory; the table holds an unrelated stale row. -/
def c1wSt : St :=
  ⟨⟨[⟨9, "Stale", "z", "c9", "u9"⟩], 9⟩,
   [⟨"1", some (InfoFile.obj
      [("id", JVal.num 1), ("title", JVal.str "A"), ("slug", JVal.str "a"),
       ("created_at", JVal.str "c1"), ("updated_at", JVal.str "u1")]), some "x", []⟩,
    ⟨"2", some InfoFile.bad, none, []⟩,
    ⟨"3", none, some "y", []⟩,
    ⟨"misc", some (InfoFile.obj
      [("id", JVal.num 5), ("title", JVal.str "M"), ("slug", JVal.str "m"),
       ("created_at", JVal.str "c5"), ("updated_at", JVal.str "u5")]), none, []⟩,
    ⟨"4", some (InfoFile.obj
      [("id", JVal.num 4), ("title", JVal.str "B"), ("slug", JVal.str "b"),
       ("created_at", JVal.str "c4"), ("updated_at", JVal.str "u4")]), none, []⟩]⟩

/-- Witness for C1 at `c1wSt` (N = 2 valid, M = 2 invalid). -/
theorem rebuild_valid_snapshots_witness :
    (rowsDistinct (validRows c1wSt.fs) = true) ∧
    (rebuildDatabaseFromFiles c1wSt).db.posts = validRows c1wSt.fs ∧
    (rebuildDatabaseFromFiles c1wSt).db.posts.length = validDirCount c1wSt.fs :=
  ⟨by decide, (rebuild_valid_snapshots c1wSt (by decide)).1,
    (rebuild_valid_snapshots c1wSt (by decide)).2.1⟩

/-- Two numeric directories with parseable snapshots that share the id
7: `INSERT OR REPLACE` makes the second overwrite the first. -/
def c1cxSt : St :=
  ⟨⟨[], 0⟩,
   [⟨"1", some (InfoFile.obj
      [("id", JVal.num 7), ("title", JVal.str "A"), ("slug", JVal.str "a"),
       ("created_at", JVal.str "c"), ("updated_at", JVal.str "u")]), none, []⟩,
    ⟨"2", some (InfoFile.obj
      [("id", JVal.num 7), ("title", JVal.str "B"), ("slug", JVal.str "b"),
       ("created_at", JVal.str "c"), ("updated_at", JVal.str "u")]), none, []⟩]⟩

/-- Counterexample to C1 as stated: N = 2 parseable snapshots but the
rebuilt table holds a single row, because both snapshots carry id 7. -/
theorem rebuild_duplicate_id_cx :
    validDirCount c1cxSt.fs = 2 ∧
    (rebuildDatabaseFromFiles c1cxSt).db.posts.length = 1 ∧
    ¬((rebuildDatabaseFromFiles c1cxSt).db.posts.length = validDirCount c1cxSt.fs) := by
  decide

/-!
## Claim C3 — the snapshot written by create versus the inserted row
-/

theorem dirOf_setDir_content (fs : List ArticleDir) (name : String) (c : Option String) :
    dirOf (setDir fs name (fun d => { d with content := c })) name =
      (dirOf fs name).map (fun d => { d with content := c }) :=
  dirOf_setDir fs name (fun d => { d with content := c }) (fun _ => rfl)

theorem dirOf_setDir_info (fs : List ArticleDir) (name : String) (i : Option InfoFile) :
    dirOf (setDir fs name (fun d => { d with info := i })) name =
      (dirOf fs name).map (fun d => { d with info := i }) :=
  dirOf_setDir fs name (fun d => { d with info := i }) (fun _ => rfl)

/-- C3 (amended): on every successful `createPost` the snapshot file
mirrors the inserted row's id, title and slug exactly, while its
`created_at`/`updated_at` are the ISO-8601 rendering of the creation
instant — not the row's `CURRENT_TIMESTAMP` rendering. -/
theorem createPost_snapshot_mirror (title content : String) (t : Nat) (st : St)
    (res : CreateRes) (st2 : St)
    (h : createPost title content t st = Except.ok (res, st2)) :
    res.id = st.db.seq + 1 ∧
    res.slug = createSlug title ∧
    st2.db.posts = st.db.posts ++
      [⟨res.id, title, res.slug, sqliteTimestamp t, sqliteTimestamp t⟩] ∧
    snapObjAt st2 (toString res.id) = some
      [("id", JVal.num res.id), ("title", JVal.str title),
       ("slug", JVal.str res.slug),
       ("created_at", JVal.str (isoTimestamp t)),
       ("updated_at", JVal.str (isoTimestamp t))] := by
  by_cases hc : st.db.posts.any (fun r => r.slug == createSlug title) = true
  · rw [createPost.eq_def] at h
    simp [hc] at h
  · rw [createPost.eq_def] at h
    simp only [hc, Bool.false_eq_true, if_false, Except.ok.injEq, Prod.mk.injEq] at h
    obtain ⟨hres, hst⟩ := h
    subst hres
    subst hst
    refine ⟨rfl, rfl, rfl, ?_⟩
    show snapObjAt
        ⟨⟨st.db.posts ++
            [⟨st.db.seq + 1, title, createSlug title, sqliteTimestamp t,
              sqliteTimestamp t⟩], st.db.seq + 1⟩,
          setDir
            (setDir (ensureDir st.fs (toString (st.db.seq + 1)))
              (toString (st.db.seq + 1)) (fun d => { d with content := some content }))
            (toString (st.db.seq + 1))
            (fun d => { d with info := some (InfoFile.obj
              [("id", JVal.num (st.db.seq + 1)), ("title", JVal.str title),
               ("slug", JVal.str (createSlug title)),
               ("created_at", JVal.str (isoTimestamp t)),
               ("updated_at", JVal.str (isoTimestamp t))]) })⟩
        (toString (st.db.seq + 1)) = some
      [("id", JVal.num (st.db.seq + 1)), ("title", JVal.str title),
       ("slug", JVal.str (createSlug title)),
       ("created_at", JVal.str (isoTimestamp t)),
       ("updated_at", JVal.str (isoTimestamp t))]
    unfold snapObjAt infoOf
    rw [dirOf_setDir_info, dirOf_setDir_content, dirOf_ensureDir]
    rfl

/-- The empty initial state: no rows, no directories, sequence 0. -/
def st0 : St := ⟨⟨[], 0⟩, []⟩

/-- The pair returned by a concrete successful create. -/
def c3pair : CreateRes × St :=
  match createPost "Hello" "<p>hi</p>" 0 st0 with
  | Except.ok p => p
  | Except.error _ => (⟨0, "", ""⟩, st0)

/-- Counterexample to C3 as stated: after `createPost "Hello"` at
`t = 0`, the snapshot's `created_at` is the ISO string while the row's
`created_at` column is the SQL rendering, so the snapshot field does
not equal the column value. -/
theorem createPost_timestamp_mismatch_cx :
    snapFieldAt c3pair.2 "1" "created_at" =
      some (JVal.str "1970-01-01T00:00:00.000Z") ∧
    (rowOf c3pair.2 1).map (fun r => r.created_at) = some "1970-01-01 00:00:00" ∧
    ¬(snapFieldAt c3pair.2 "1" "created_at" =
        (rowOf c3pair.2 1).map (fun r => JVal.str r.created_at)) := by
  decide

/-- Witness for C3 at the concrete create from the empty state. -/
theorem createPost_snapshot_mirror_witness :
    (createPost "Hello" "<p>hi</p>" 0 st0 = Except.ok (c3pair.1, c3pair.2)) ∧
    c3pair.1.id = st0.db.seq + 1 ∧
    c3pair.2.db.posts = st0.db.posts ++
      [⟨c3pair.1.id, "Hello", c3pair.1.slug, sqliteTimestamp 0, sqliteTimestamp 0⟩] ∧
    snapObjAt c3pair.2 (toString c3pair.1.id) = some
      [("id", JVal.num c3pair.1.id), ("title", JVal.str "Hello"),
       ("slug", JVal.str c3pair.1.slug),
       ("created_at", JVal.str (isoTimestamp 0)),
       ("updated_at", JVal.str (isoTimestamp 0))] :=
  have h : createPost "Hello" "<p>hi</p>" 0 st0 = Except.ok (c3pair.1, c3pair.2) := by
    rfl
  ⟨h, (createPost_snapshot_mirror _ _ _ _ _ _ h).1,
    (createPost_snapshot_mirror _ _ _ _ _ _ h).2.2.1,
    (createPost_snapshot_mirror _ _ _ _ _ _ h).2.2.2⟩

/-!
## Claim C6 — update rewrites title/slug/updated_at and preserves the rest
-/

/-- Whether the snapshot file of a directory is absent or parses
(`JSON.parse` succeeds on every snapshot the application writes). -/
def infoParses (d : ArticleDir) : Bool :=
  match d.info with
  | some InfoFile.bad => false
  | _ => true

/-- The parsed fields of a directory's snapshot, empty when the file is
absent (the `let info = {}` default of `updatePost`). -/
def oldFields (d : ArticleDir) : JObj :=
  match d.info with
  | some (InfoFile.obj f) => f
  | _ => []

/-- Keys other than the three that `updatePost` reassigns. -/
def keepOther (kv : String × JVal) : Bool :=
  !(kv.1 == "title") && !(kv.1 == "slug") && !(kv.1 == "updated_at")

/-- The state after `updatePost`, whether it succeeded or threw. -/
def updState (id : Int) (title content : String) (t : Nat) (st : St) : St :=
  match updatePost id title content t st with
  | Except.ok s => s
  | Except.error s => s

theorem find?_map_upd (l : List Row) (id : Int) (title slug stamp : String) :
    (l.map (fun r => if r.id == id then
        { r with title := title, slug := slug, updated_at := stamp }
      else r)).find? (fun r => r.id == id) =
      (l.find? (fun r => r.id == id)).map
        (fun r => { r with title := title, slug := slug, updated_at := stamp }) := by
  induction l with
  | nil => rfl
  | cons r rs ih =>
    by_cases h : r.id == id
    · have h2 : (({ r with
          title := title,
          slug := slug,
          updated_at := stamp } : Row).id == id) = true := h
      rw [List.map_cons, if_pos h]
      simp only [List.find?_cons, h2, h]
      rfl
    · have h2 : (r.id == id) = false := by
        simp only [Bool.not_eq_true] at h
        exact h
      rw [List.map_cons, if_neg h]
      simp only [List.find?_cons, h2]
      exact ih

/-- C6 (amended): for every existing post whose directory exists, whose
snapshot file is absent or parses, and whose recomputed slug does not
collide with a different row's slug, `updatePost` succeeds, rewrites the
row's title, slug and `updated_at` while preserving its id and
`created_at`, rewrites the content file, and rewrites the snapshot
merging in the new title/slug/`updated_at` while preserving every other
field already present. -/
theorem updatePost_spec (id : Int) (title content : String) (t : Nat) (st : St)
    (row : Row) (d : ArticleDir)
    (hrow : rowOf st id = some row)
    (hcol : st.db.posts.any (fun r => r.id != id && r.slug == createSlug title) = false)
    (hdir : dirOf st.fs (toString id) = some d)
    (hinfo : infoParses d = true) :
    updatePost id title content t st = Except.ok (updState id title content t st) ∧
    rowOf (updState id title content t st) id = some
      { row with
        title := title,
        slug := createSlug title,
        updated_at := sqliteTimestamp t } ∧
    contentOf (updState id title content t st).fs (toString id) = some content ∧
    snapObjAt (updState id title content t st) (toString id) = some
      (jset "updated_at" (JVal.str (isoTimestamp t))
        (jset "slug" (JVal.str (createSlug title))
          (jset "title" (JVal.str title) (oldFields d)))) ∧
    snapFieldAt (updState id title content t st) (toString id) "title" =
      some (JVal.str title) ∧
    snapFieldAt (updState id title content t st) (toString id) "slug" =
      some (JVal.str (createSlug title)) ∧
    snapFieldAt (updState id title content t st) (toString id) "updated_at" =
      some (JVal.str (isoTimestamp t)) ∧
    (jset "updated_at" (JVal.str (isoTimestamp t))
      (jset "slug" (JVal.str (createSlug title))
        (jset "title" (JVal.str title) (oldFields d)))).filter keepOther =
      (oldFields d).filter keepOther := by
  have hcol2 : ¬(st.db.posts.any
      (fun r => r.id != id && r.slug == createSlug title) = true) := by
    rw [hcol]; simp
  have hok : updatePost id title content t st = Except.ok
      ⟨⟨st.db.posts.map (fun r => if r.id == id then
          { r with
            title := title,
            slug := createSlug title,
            updated_at := sqliteTimestamp t } else r), st.db.seq⟩,
        setDir (setDir st.fs (toString id)
            (fun d2 => { d2 with content := some content })) (toString id)
          (fun d2 => { d2 with info := some (InfoFile.obj
            (jset "updated_at" (JVal.str (isoTimestamp t))
              (jset "slug" (JVal.str (createSlug title))
                (jset "title" (JVal.str title) (oldFields d))))) })⟩ := by
    rw [updatePost.eq_def]
    simp only [if_neg hcol2]
    rw [hdir]
    cases hd : d.info with
    | none => simp [oldFields, hd]
    | some f =>
      cases f with
      | bad => rw [infoParses] at hinfo; simp [hd] at hinfo
      | obj fields => simp [oldFields, hd]
  have hupd : updState id title content t st =
      ⟨⟨st.db.posts.map (fun r => if r.id == id then
          { r with
            title := title,
            slug := createSlug title,
            updated_at := sqliteTimestamp t } else r), st.db.seq⟩,
        setDir (setDir st.fs (toString id)
            (fun d2 => { d2 with content := some content })) (toString id)
          (fun d2 => { d2 with info := some (InfoFile.obj
            (jset "updated_at" (JVal.str (isoTimestamp t))
              (jset "slug" (JVal.str (createSlug title))
                (jset "title" (JVal.str title) (oldFields d))))) })⟩ := by
    unfold updState
    rw [hok]
  have hsnap : snapObjAt (updState id title content t st) (toString id) = some
      (jset "updated_at" (JVal.str (isoTimestamp t))
        (jset "slug" (JVal.str (createSlug title))
          (jset "title" (JVal.str title) (oldFields d)))) := by
    rw [hupd]
    unfold snapObjAt infoOf
    rw [dirOf_setDir_info, dirOf_setDir_content, hdir]
    rfl
  have hfilter : (jset "updated_at" (JVal.str (isoTimestamp t))
      (jset "slug" (JVal.str (createSlug title))
        (jset "title" (JVal.str title) (oldFields d)))).filter keepOther =
      (oldFields d).filter keepOther := by
    rw [filter_jset _ _ _ _ (fun w => rfl), filter_jset _ _ _ _ (fun w => rfl),
      filter_jset _ _ _ _ (fun w => rfl)]
  refine ⟨by rw [hupd]; exact hok, ?_, ?_, hsnap, ?_, ?_, ?_, hfilter⟩
  · rw [hupd]
    unfold rowOf at hrow ⊢
    show (st.db.posts.map (fun r => if r.id == id then
        { r with
          title := title,
          slug := createSlug title,
          updated_at := sqliteTimestamp t } else r)).find? (fun r => r.id == id) = _
    rw [find?_map_upd st.db.posts id title (createSlug title) (sqliteTimestamp t),
      hrow]
    rfl
  · rw [hupd]
    unfold contentOf
    rw [dirOf_setDir_info, dirOf_setDir_content, hdir]
    rfl
  · rw [snapFieldAt, hsnap]
    show jlookup "title" _ = _
    rw [jlookup_jset_ne _ _ _ _ (by decide), jlookup_jset_ne _ _ _ _ (by decide),
      jlookup_jset_self]
  · rw [snapFieldAt, hsnap]
    show jlookup "slug" _ = _
    rw [jlookup_jset_ne _ _ _ _ (by decide), jlookup_jset_self]
  · rw [snapFieldAt, hsnap]
    show jlookup "updated_at" _ = _
    rw [jlookup_jset_self]

/-- Two posts whose directories and snapshots are intact; the slug of
post 1 is `"a"`, the slug that `"A"` derives. -/
def c6cxSt : St :=
  ⟨⟨[⟨1, "A", "a", "c1", "u1"⟩, ⟨2, "B", "b", "c2", "u2"⟩], 2⟩,
   [⟨"1", some (InfoFile.obj
      [("id", JVal.num 1), ("title", JVal.str "A"), ("slug", JVal.str "a"),
       ("created_at", JVal.str "c1"), ("updated_at", JVal.str "u1")]), some "xa", []⟩,
    ⟨"2", some (InfoFile.obj
      [("id", JVal.num 2), ("title", JVal.str "B"), ("slug", JVal.str "b"),
       ("created_at", JVal.str "c2"), ("updated_at", JVal.str "u2")]), some "xb", []⟩]⟩

deriving instance DecidableEq for Except

/-- Counterexample to C6 as stated: updating existing post 2 with the
title `"A"` derives the slug of post 1, the UNIQUE constraint makes the
`UPDATE` throw, and the row keeps its old title instead of changing. -/
theorem updatePost_slug_conflict_cx :
    (rowOf c6cxSt 2).isSome = true ∧
    updatePost 2 "A" "body" 0 c6cxSt = Except.error c6cxSt ∧
    (rowOf c6cxSt 2).map (fun r => r.title) = some "B" := by
  decide

/-- One post whose snapshot carries an extra field `"extra"`. -/
def c6wSt : St :=
  ⟨⟨[⟨1, "Old", "old", "c0", "u0"⟩], 1⟩,
   [⟨"1", some (InfoFile.obj
      [("id", JVal.num 1), ("title", JVal.str "Old"), ("slug", JVal.str "old"),
       ("created_at", JVal.str "c0"), ("updated_at", JVal.str "u0"),
       ("extra", JVal.str "keep")]), some "oldbody", []⟩]⟩

/-- The row of `c6wSt`. -/
def c6row : Row := ⟨1, "Old", "old", "c0", "u0"⟩

/-- The directory of `c6wSt`. -/
def c6dir : ArticleDir :=
  ⟨"1", some (InfoFile.obj
    [("id", JVal.num 1), ("title", JVal.str "Old"), ("slug", JVal.str "old"),
     ("created_at", JVal.str "c0"), ("updated_at", JVal.str "u0"),
     ("extra", JVal.str "keep")]), some "oldbody", []⟩

/-- Witness for C6 at a concrete update of `c6wSt`. -/
theorem updatePost_spec_witness :
    rowOf c6wSt 1 = some c6row ∧
    updatePost 1 "New" "body" 0 c6wSt =
      Except.ok (updState 1 "New" "body" 0 c6wSt) ∧
    rowOf (updState 1 "New" "body" 0 c6wSt) 1 = some
      { c6row with
        title := "New",
        slug := createSlug "New",
        updated_at := sqliteTimestamp 0 } ∧
    contentOf (updState 1 "New" "body" 0 c6wSt).fs (toString (1 : Int)) =
      some "body" ∧
    (jset "updated_at" (JVal.str (isoTimestamp 0))
      (jset "slug" (JVal.str (createSlug "New"))
        (jset "title" (JVal.str "New") (oldFields c6dir)))).filter keepOther =
      (oldFields c6dir).filter keepOther :=
  have h := updatePost_spec 1 "New" "body" 0 c6wSt c6row c6dir
    (by decide) (by decide) (by decide) (by decide)
  ⟨by decide, h.1, h.2.1, h.2.2.1, h.2.2.2.2.2.2.2⟩

/-!
## Claim C8 — oversized uploads are rejected and the staged copy removed
-/

/-- C8: an upload whose staged payload exceeds 10 MiB is answered with
the size-limit error, no state is touched (in particular no file reaches
the post's assets directory) and the staged copy is unlinked; moreover
on every path of the handler — success, size rejection, or a throw
caught by the `catch` block — the staged copy is gone afterwards. -/
theorem uploadHandler_spec (f : TempFile) (postId : Int) (t : Nat) (rnd : String)
    (writeFails : Bool) (st : St) (temps : List (String × List Nat)) :
    (sizeLimit < f.size →
      uploadHandler (some f) postId t rnd writeFails st temps =
        (UploadResp.tooLarge, st, removeTemp temps f.tpath)) ∧
    ((uploadHandler (some f) postId t rnd writeFails st temps).2.2.find?
      (fun kv => kv.1 == f.tpath) = none) := by
  constructor
  · intro h
    simp only [uploadHandler]
    rw [if_pos h]
  · have hgone : (removeTemp temps f.tpath).find? (fun kv => kv.1 == f.tpath) = none := by
      unfold removeTemp
      exact find?_filter_not _ _
    simp only [uploadHandler]
    by_cases h : sizeLimit < f.size
    · rw [if_pos h]
      exact hgone
    · rw [if_neg h]
      cases writeFails with
      | true => simp only [if_pos rfl]; exact hgone
      | false => exact hgone

/-- A staged upload one byte over the ceiling. -/
def c8file : TempFile := ⟨"tmp-1", 10 * 1024 * 1024 + 1, "a.png", [1]⟩

/-- A staging directory holding that upload. -/
def c8temps : List (String × List Nat) := [("tmp-1", [1])]

/-- Witness for C8 at the oversized concrete upload. -/
theorem uploadHandler_spec_witness :
    (sizeLimit < c8file.size) ∧
    uploadHandler (some c8file) 1 0 "r" false st0 c8temps =
      (UploadResp.tooLarge, st0, removeTemp c8temps c8file.tpath) ∧
    ((uploadHandler (some c8file) 1 0 "r" false st0 c8temps).2.2.find?
      (fun kv => kv.1 == c8file.tpath) = none) :=
  have h := uploadHandler_spec c8file 1 0 "r" false st0 c8temps
  ⟨by decide, h.1 (by decide), h.2⟩

/-!
## Claim C9 — read-by-id: not-found and missing-content behaviour
-/

/-- Whether the content file of the post's directory is absent (also
true when the directory itself is absent, as `existsSync` then fails). -/
def contentMissingAt (st : St) (id : Int) : Bool :=
  match dirOf st.fs (toString id) with
  | none => true
  | some d => d.content.isNone

/-- Whether the snapshot file of the post's directory is absent or
parses. -/
def infoParsesAt (st : St) (id : Int) : Bool :=
  match dirOf st.fs (toString id) with
  | none => true
  | some d => infoParses d

/-- C9 (amended): `getPostById` returns not-found exactly when no row
with the id exists; and when the row exists, the content file is
missing and the snapshot file is absent or parses, the read succeeds
and returns the post with empty content.  (Without the snapshot
proviso the second part fails: a corrupt snapshot makes `JSON.parse`
throw, see the counterexample below.) -/
theorem getPostById_spec (id : Int) (st : St) :
    ((getPostById id st = Except.ok none) ↔ rowOf st id = none) ∧
    (∀ row, rowOf st id = some row → infoParsesAt st id = true →
      contentMissingAt st id = true →
      getPostById id st =
        Except.ok (some ⟨row, "", snapObjAt st (toString id)⟩)) := by
  constructor
  · cases hfind : rowOf st id with
    | none =>
      simp only [getPostById, hfind]
    | some row =>
      simp only [getPostById, hfind]
      constructor
      · intro h
        exfalso
        cases hd : dirOf st.fs (toString id) with
        | none => simp [hd] at h
        | some dir =>
          cases hi : dir.info with
          | none => simp [hd, hi] at h
          | some f =>
            cases f with
            | bad => simp [hd, hi] at h
            | obj fields => simp [hd, hi] at h
      · intro h
        exact absurd h (by simp)
  · intro row hrow hinfo hmiss
    simp only [getPostById, hrow]
    cases hd : dirOf st.fs (toString id) with
    | none =>
      simp [hd, snapObjAt, infoOf]
    | some dir =>
      simp only [contentMissingAt, hd] at hmiss
      have hcontent : dir.content = none := Option.isNone_iff_eq_none.mp hmiss
      cases hi : dir.info with
      | none => simp [hd, hi, hcontent, snapObjAt, infoOf]
      | some f =>
        cases f with
        | bad =>
          simp [infoParsesAt, hd, infoParses, hi] at hinfo
        | obj fields => simp [hd, hi, hcontent, snapObjAt, infoOf]

/-- A state whose only post came from reconciliation of a directory
holding a snapshot but no content file. -/
def c9st : St :=
  ⟨⟨[⟨1, "T", "t", "c", "u"⟩], 1⟩,
   [⟨"1", some (InfoFile.obj [("k", JVal.str "v")]), none, []⟩]⟩

/-- Witness for C9 at the concrete state `c9st`. -/
theorem getPostById_spec_witness :
    (rowOf c9st 1 = some ⟨1, "T", "t", "c", "u"⟩) ∧
    infoParsesAt c9st 1 = true ∧
    contentMissingAt c9st 1 = true ∧
    getPostById 1 c9st =
      Except.ok (some ⟨⟨1, "T", "t", "c", "u"⟩, "", snapObjAt c9st (toString (1 : Int))⟩) :=
  ⟨by decide, by decide, by decide,
    (getPostById_spec 1 c9st).2 ⟨1, "T", "t", "c", "u"⟩ (by decide) (by decide) (by decide)⟩

/-- A state with a row whose directory holds an unparseable snapshot
file and no content file. -/
def c9cxSt : St :=
  ⟨⟨[⟨1, "T", "t", "c", "u"⟩], 1⟩,
   [⟨"1", some InfoFile.bad, none, []⟩]⟩

/-- Counterexample to C9 as stated: the row for id 1 exists and its
content file is missing, yet the read does not succeed with empty
content — `JSON.parse` throws on the unparseable snapshot file and
`getPostById` fails. -/
theorem getPostById_bad_snapshot_cx :
    (rowOf c9cxSt 1).isSome = true ∧
    contentMissingAt c9cxSt 1 = true ∧
    getPostById 1 c9cxSt = Except.error c9cxSt := by
  decide

/-!
## Claim C10 — asset retrieval path traversal
-/

/-- A disk holding one genuine asset of post 1 and the application's
database file outside the articles tree. -/
def c10disk : PathFS :=
  [(["app", "articles", "1", "assets", "img.png"], [1, 2, 3]),
   (["app", "blog.db"], [9, 9, 9])]

/-- C10: `getArticleAsset` applies no validation to the caller-supplied
filename: for the filename `"../../../blog.db"`, which contains
parent-directory segments, the joined path resolves outside the post's
assets directory and the call returns the bytes of `blog.db` — a file
that was never uploaded to the post (no file under the post's assets
directory has those bytes). -/
theorem getArticleAsset_traversal :
    ((splitPath "../../../blog.db").contains ".." = true) ∧
    getArticleAsset "1" "../../../blog.db" c10disk = some [9, 9, 9] ∧
    underDir (articlesRoot ++ ["1", "assets"])
      (resolveSegs []
        (articlesRoot ++ ["1", "assets"] ++ splitPath "../../../blog.db")) = false ∧
    c10disk.find? (fun e => underDir (articlesRoot ++ ["1", "assets"]) e.1 &&
      e.2 == [9, 9, 9]) = none := by
  decide
